import Mathlib

/-!
Shallow embedding of the transaction-processing engine in src/src/main.rs.

The two SQLite tables (tx, account) are modelled as partial maps keyed by
their INTEGER PRIMARY KEY columns.  Each handler function below mirrors one
handle_* function of the source: the same duplicate-id guard, the same SQL
WHERE filters, the same column updates, in the same order.  The rusqlite
error paths of the source fire only on store I/O failures, which a pure
in-memory map cannot produce, so every handler here is total and the
business no-op paths return the state unchanged, exactly as the source
returns Ok(()) after rolling back.

Amounts: the source declares `type Amount = f64`.  The embedding idealises
amounts as exact rationals; the floating-point representation itself is the
subject of claim C4, settled separately through the defs near the end.
-/

namespace TxProcessor

/-- Client identifier (u16 in the source; the claims involve no overflow). -/
abbrev ClientId := Nat

/-- Transaction identifier (u32 in the source; the claims involve no overflow). -/
abbrev TxId := Nat

/-- Monetary amount: `type Amount = f64` in the source, idealised as an exact
rational here.  See claim C4 for the floating-point fidelity question. -/
abbrev Amount := ℚ

/-- The event / transaction type tags of the source's TxType enum. -/
inductive TxType where
  | Deposit
  | Withdrawal
  | Dispute
  | Resolve
  | Chargeback
deriving DecidableEq

/-- Lifecycle status of a stored transaction row (source's TxStatus enum). -/
inductive TxStatus where
  | Processed
  | InDispute
  | Resolved
  | Chargeback
deriving DecidableEq

/-- Account status column values (source's AccountStatus enum). -/
inductive AccountStatus where
  | Active
  | Blocked
  | Inactive
deriving DecidableEq

/-- An incoming typed event (the source's Tx struct).  The source carries the
amount as a raw string handed to SQL; dispute-family handlers never read it. -/
structure Tx where
  id : TxId
  tx_type : TxType
  client_id : ClientId
  amount : Amount
deriving DecidableEq

/-- A row of the tx table, minus its primary-key id column (the map key):
columns tx_type, client_id, amount, status (status defaults to processed). -/
structure TxRow where
  tx_type : TxType
  client_id : ClientId
  amount : Amount
  status : TxStatus
deriving DecidableEq

/-- A row of the account table, minus its primary-key id column (the map key):
columns available_amount, held_amount, locked, status.  Note the schema has
no total column: total is derived at report time (claim C9). -/
structure AccountRow where
  available_amount : Amount
  held_amount : Amount
  locked : Bool
  status : AccountStatus
deriving DecidableEq

/-- The database: the two tables, keyed by their primary keys. -/
structure Db where
  txTable : TxId → Option TxRow
  accountTable : ClientId → Option AccountRow

/-- The freshly migrated database: both tables empty. -/
def emptyDb : Db := ⟨fun _ => none, fun _ => none⟩

/-- INSERT OR IGNORE on a keyed table: insert the row only when the key is
absent, keep the existing row otherwise. -/
def insertOrIgnore {V : Type} (tbl : Nat → Option V) (k : Nat) (v : V) :
    Nat → Option V :=
  fun j => if j = k then some ((tbl k).getD v) else tbl j

/-- UPDATE tx SET status = st WHERE id = i. -/
def updateTxStatus (tbl : TxId → Option TxRow) (i : TxId) (st : TxStatus) :
    TxId → Option TxRow :=
  fun j => if j = i then (tbl j).map (fun r => { r with status := st }) else tbl j

/-- UPDATE account SET (f) WHERE id = c AND (p): the row at key c is rewritten
by f when it satisfies the extra WHERE condition p, otherwise untouched. -/
def updateAccountWhere (tbl : ClientId → Option AccountRow) (c : ClientId)
    (p : AccountRow → Prop) [DecidablePred p] (f : AccountRow → AccountRow) :
    ClientId → Option AccountRow :=
  fun j => if j = c then (tbl j).map (fun r => if p r then f r else r) else tbl j

/-- SELECT the tx row WHERE status = st AND client_id = c AND id = i.  Since
id is the primary key this is a lookup at i followed by the two filters;
the returned row's id column is i itself. -/
def queryTx (db : Db) (c : ClientId) (i : TxId) (st : TxStatus) : Option TxRow :=
  match db.txTable i with
  | some r => if r.status = st ∧ r.client_id = c then some r else none
  | none => none

/-- handle_deposit: if a tx row with this id exists (count = 1), roll back and
stop; else INSERT OR IGNORE the account with zero funds, credit
available_amount WHERE id = client AND status = active, and INSERT OR IGNORE
the tx row (status column defaulting to processed). -/
def handle_deposit (db : Db) (tx : Tx) : Db :=
  match db.txTable tx.id with
  | some _ => db
  | none =>
    let accounts1 := insertOrIgnore db.accountTable tx.client_id
      ⟨0, 0, false, AccountStatus.Active⟩
    let accounts2 := updateAccountWhere accounts1 tx.client_id
      (fun r => r.status = AccountStatus.Active)
      (fun r => { r with available_amount := r.available_amount + tx.amount })
    let txs1 := insertOrIgnore db.txTable tx.id
      ⟨tx.tx_type, tx.client_id, tx.amount, TxStatus.Processed⟩
    ⟨txs1, accounts2⟩

/-- handle_withdrawal: if a tx row with this id exists, roll back and stop;
else debit available_amount WHERE id = client AND status = active AND
available_amount >= amount, and then unconditionally INSERT OR IGNORE the tx
row (status defaulting to processed) — the insert is not guarded by the
debit having matched a row, faithfully to the source. -/
def handle_withdrawal (db : Db) (tx : Tx) : Db :=
  match db.txTable tx.id with
  | some _ => db
  | none =>
    let accounts1 := updateAccountWhere db.accountTable tx.client_id
      (fun r => r.status = AccountStatus.Active ∧ tx.amount ≤ r.available_amount)
      (fun r => { r with available_amount := r.available_amount - tx.amount })
    let txs1 := insertOrIgnore db.txTable tx.id
      ⟨tx.tx_type, tx.client_id, tx.amount, TxStatus.Processed⟩
    ⟨txs1, accounts1⟩

/-- handle_dispute: look up the tx row WHERE status = processed AND matching
client and id; no row means return Ok unchanged; otherwise set the row's
status to in_dispute and move the amount from available to held WHERE
id = client (with no account-status filter). -/
def handle_dispute (db : Db) (tx : Tx) : Db :=
  match queryTx db tx.client_id tx.id TxStatus.Processed with
  | none => db
  | some row =>
    let txs1 := updateTxStatus db.txTable tx.id TxStatus.InDispute
    let accounts1 := updateAccountWhere db.accountTable row.client_id
      (fun _ => True)
      (fun r => { r with available_amount := r.available_amount - row.amount,
                         held_amount := r.held_amount + row.amount })
    ⟨txs1, accounts1⟩

/-- handle_resolve: the source's lookup filters on status = processed (not
in_dispute: line 375 passes TxStatus::Processed); no row means return Ok
unchanged; otherwise set the row's status to resolved and move the amount
from held to available WHERE id = client (no account-status filter). -/
def handle_resolve (db : Db) (tx : Tx) : Db :=
  match queryTx db tx.client_id tx.id TxStatus.Processed with
  | none => db
  | some row =>
    let txs1 := updateTxStatus db.txTable tx.id TxStatus.Resolved
    let accounts1 := updateAccountWhere db.accountTable row.client_id
      (fun _ => True)
      (fun r => { r with available_amount := r.available_amount + row.amount,
                         held_amount := r.held_amount - row.amount })
    ⟨txs1, accounts1⟩

/-- handle_chargeback: look up the tx row WHERE status = in_dispute AND
matching client and id; no row means return Ok unchanged; otherwise set the
row's status to chargeback and UPDATE account SET held_amount -= amount,
status = blocked WHERE id = client.  The locked boolean column is not
touched; the report derives locked from status = blocked. -/
def handle_chargeback (db : Db) (tx : Tx) : Db :=
  match queryTx db tx.client_id tx.id TxStatus.InDispute with
  | none => db
  | some row =>
    let txs1 := updateTxStatus db.txTable tx.id TxStatus.Chargeback
    let accounts1 := updateAccountWhere db.accountTable row.client_id
      (fun _ => True)
      (fun r => { r with held_amount := r.held_amount - row.amount,
                         status := AccountStatus.Blocked })
    ⟨txs1, accounts1⟩

/-- handle_tx: dispatch on the event's type tag. -/
def handle_tx (db : Db) (tx : Tx) : Db :=
  match tx.tx_type with
  | TxType.Deposit => handle_deposit db tx
  | TxType.Withdrawal => handle_withdrawal db tx
  | TxType.Dispute => handle_dispute db tx
  | TxType.Resolve => handle_resolve db tx
  | TxType.Chargeback => handle_chargeback db tx

/-- The main loop: events are queued FIFO and handled strictly in order. -/
def processList (db : Db) (txs : List Tx) : Db :=
  txs.foldl handle_tx db

/-- One output row of from_sql_table (the reporter). -/
structure Account where
  client_id : ClientId
  available : Amount
  held : Amount
  total : Amount
  locked : Bool
deriving DecidableEq

/-- from_sql_table computes each output row: total is derived as
available + held at read time, and locked is derived from the status column
being blocked (the stored locked boolean column is ignored). -/
def reportRow (c : ClientId) (r : AccountRow) : Account :=
  ⟨c, r.available_amount, r.held_amount, r.available_amount + r.held_amount,
    decide (r.status = AccountStatus.Blocked)⟩

/-! ## Shared lemmas about the handlers -/

/-- A deposit whose transaction id is already present rolls back unchanged. -/
theorem handle_deposit_of_some {db : Db} {tx : Tx}
    (h : (db.txTable tx.id).isSome) : handle_deposit db tx = db := by
  obtain ⟨r, hr⟩ := Option.isSome_iff_exists.mp h
  simp [handle_deposit, hr]

/-- A withdrawal whose transaction id is already present rolls back unchanged. -/
theorem handle_withdrawal_of_some {db : Db} {tx : Tx}
    (h : (db.txTable tx.id).isSome) : handle_withdrawal db tx = db := by
  obtain ⟨r, hr⟩ := Option.isSome_iff_exists.mp h
  simp [handle_withdrawal, hr]

/-- After a deposit is handled, a transaction row with its id exists: either
it already did, or the handler inserted one. -/
theorem handle_deposit_txSome (db : Db) (tx : Tx) :
    ((handle_deposit db tx).txTable tx.id).isSome := by
  cases h : db.txTable tx.id with
  | some r => simp [handle_deposit, h]
  | none => simp [handle_deposit, h, insertOrIgnore]

/-- After a withdrawal is handled, a transaction row with its id exists:
the source inserts it unconditionally once the duplicate check passes. -/
theorem handle_withdrawal_txSome (db : Db) (tx : Tx) :
    ((handle_withdrawal db tx).txTable tx.id).isSome := by
  cases h : db.txTable tx.id with
  | some r => simp [handle_withdrawal, h]
  | none => simp [handle_withdrawal, h, insertOrIgnore]

/-- The guarded account UPDATE preserves which account rows exist. -/
theorem updateAccountWhere_isSome (tbl : ClientId → Option AccountRow)
    (c : ClientId) (p : AccountRow → Prop) [DecidablePred p]
    (f : AccountRow → AccountRow) (j : ClientId) :
    ((updateAccountWhere tbl c p f) j).isSome = (tbl j).isSome := by
  unfold updateAccountWhere
  by_cases h : j = c
  · simp [h]
  · simp [h]

/-! ## Claim theorems -/

/-- C5: applying the same Deposit or Withdrawal event twice in succession
yields the same final state as applying it once — the first application
leaves a transaction row with the event's id in place (either pre-existing
or freshly inserted), so the second application hits the duplicate-id guard
and rolls back unchanged. -/
theorem c5_idempotent_replay (db : Db) (tx : Tx)
    (h : tx.tx_type = TxType.Deposit ∨ tx.tx_type = TxType.Withdrawal) :
    handle_tx (handle_tx db tx) tx = handle_tx db tx := by
  rcases h with h | h
  · simp only [handle_tx, h]
    exact handle_deposit_of_some (handle_deposit_txSome db tx)
  · simp only [handle_tx, h]
    exact handle_withdrawal_of_some (handle_withdrawal_txSome db tx)

/-- Witness for C5 at a concrete input: replaying a deposit of 5 with
transaction id 1 over the empty database changes nothing the second time. -/
theorem c5_idempotent_replay_witness :
    handle_tx (handle_tx emptyDb ⟨1, TxType.Deposit, 1, 5⟩) ⟨1, TxType.Deposit, 1, 5⟩
      = handle_tx emptyDb ⟨1, TxType.Deposit, 1, 5⟩ :=
  c5_idempotent_replay emptyDb ⟨1, TxType.Deposit, 1, 5⟩ (Or.inl rfl)

/-- C6: once a transaction row has a terminal status (Resolved or Chargeback)
every later Dispute, Resolve or Chargeback naming its id is a no-op, because
each of the three lookups filters on a non-terminal status (processed,
processed, in_dispute respectively) and so matches no row. -/
theorem c6_terminal_noop (db : Db) (i : TxId) (row : TxRow)
    (hrow : db.txTable i = some row)
    (hterm : row.status = TxStatus.Resolved ∨ row.status = TxStatus.Chargeback)
    (c : ClientId) (a : Amount) :
    handle_dispute db ⟨i, TxType.Dispute, c, a⟩ = db
    ∧ handle_resolve db ⟨i, TxType.Resolve, c, a⟩ = db
    ∧ handle_chargeback db ⟨i, TxType.Chargeback, c, a⟩ = db := by
  refine ⟨?_, ?_, ?_⟩ <;> rcases hterm with h | h <;>
    simp [handle_dispute, handle_resolve, handle_chargeback, queryTx, hrow, h]

/-- Witness for C6 at a concrete input: after deposit, dispute and chargeback
of transaction 1 its row is terminal, and replaying any of the three
reference events against id 1 changes nothing. -/
theorem c6_terminal_noop_witness :
    handle_dispute
        (processList emptyDb [⟨1, TxType.Deposit, 1, 5⟩, ⟨1, TxType.Dispute, 1, 0⟩,
          ⟨1, TxType.Chargeback, 1, 0⟩]) ⟨1, TxType.Dispute, 1, 0⟩
      = processList emptyDb [⟨1, TxType.Deposit, 1, 5⟩, ⟨1, TxType.Dispute, 1, 0⟩,
          ⟨1, TxType.Chargeback, 1, 0⟩]
    ∧ handle_resolve
        (processList emptyDb [⟨1, TxType.Deposit, 1, 5⟩, ⟨1, TxType.Dispute, 1, 0⟩,
          ⟨1, TxType.Chargeback, 1, 0⟩]) ⟨1, TxType.Resolve, 1, 0⟩
      = processList emptyDb [⟨1, TxType.Deposit, 1, 5⟩, ⟨1, TxType.Dispute, 1, 0⟩,
          ⟨1, TxType.Chargeback, 1, 0⟩]
    ∧ handle_chargeback
        (processList emptyDb [⟨1, TxType.Deposit, 1, 5⟩, ⟨1, TxType.Dispute, 1, 0⟩,
          ⟨1, TxType.Chargeback, 1, 0⟩]) ⟨1, TxType.Chargeback, 1, 0⟩
      = processList emptyDb [⟨1, TxType.Deposit, 1, 5⟩, ⟨1, TxType.Dispute, 1, 0⟩,
          ⟨1, TxType.Chargeback, 1, 0⟩] :=
  c6_terminal_noop
    (processList emptyDb [⟨1, TxType.Deposit, 1, 5⟩, ⟨1, TxType.Dispute, 1, 0⟩,
      ⟨1, TxType.Chargeback, 1, 0⟩]) 1
    ⟨TxType.Deposit, 1, 5, TxStatus.Chargeback⟩
    (by simp [processList, handle_tx, handle_deposit, handle_dispute,
      handle_chargeback, queryTx, insertOrIgnore, updateTxStatus, emptyDb])
    (Or.inr rfl) 1 0

/-- Transactions whose id never appears as a Deposit or Withdrawal id in the
stream are never inserted into the tx table: the dispute-family handlers only
rewrite existing rows. -/
theorem txTable_none_preserved (i : TxId) :
    ∀ (es : List Tx) (db : Db), db.txTable i = none →
      (∀ e ∈ es, e.id = i →
        e.tx_type ≠ TxType.Deposit ∧ e.tx_type ≠ TxType.Withdrawal) →
      (processList db es).txTable i = none := by
  intro es
  induction es with
  | nil => intro db h _; exact h
  | cons e rest ih =>
    intro db h hall
    have hstep : (handle_tx db e).txTable i = none := by
      have hhead := hall e (List.mem_cons_self e rest)
      cases hty : e.tx_type
      case Deposit =>
        cases hid : db.txTable e.id with
        | some r => simpa [handle_tx, hty, handle_deposit, hid] using h
        | none =>
          have hne : e.id ≠ i := fun hEq => ((hhead hEq).1 hty).elim
          simp [handle_tx, hty, handle_deposit, hid, insertOrIgnore,
            Ne.symm hne, h]
      case Withdrawal =>
        cases hid : db.txTable e.id with
        | some r => simpa [handle_tx, hty, handle_withdrawal, hid] using h
        | none =>
          have hne : e.id ≠ i := fun hEq => ((hhead hEq).2 hty).elim
          simp [handle_tx, hty, handle_withdrawal, hid, insertOrIgnore,
            Ne.symm hne, h]
      case Dispute =>
        cases hq : queryTx db e.client_id e.id TxStatus.Processed with
        | none => simpa [handle_tx, hty, handle_dispute, hq] using h
        | some row =>
          simp [handle_tx, hty, handle_dispute, hq, updateTxStatus, h]
      case Resolve =>
        cases hq : queryTx db e.client_id e.id TxStatus.Processed with
        | none => simpa [handle_tx, hty, handle_resolve, hq] using h
        | some row =>
          simp [handle_tx, hty, handle_resolve, hq, updateTxStatus, h]
      case Chargeback =>
        cases hq : queryTx db e.client_id e.id TxStatus.InDispute with
        | none => simpa [handle_tx, hty, handle_chargeback, hq] using h
        | some row =>
          simp [handle_tx, hty, handle_chargeback, hq, updateTxStatus, h]
    have htail : ∀ e' ∈ rest, e'.id = i →
        e'.tx_type ≠ TxType.Deposit ∧ e'.tx_type ≠ TxType.Withdrawal :=
      fun e' he' => hall e' (List.mem_cons_of_mem e he')
    simpa [processList] using ih (handle_tx db e) hstep htail

/-- C8: a Dispute naming a transaction id that no Deposit or Withdrawal of the
stream ever carried is a no-op — the lookup finds no row and the handler
returns (with Ok, not an error) before touching either store. -/
theorem c8_dispute_unknown_id_noop (es : List Tx) (i : TxId) (c : ClientId)
    (a : Amount)
    (h : ∀ e ∈ es, e.id = i →
      e.tx_type ≠ TxType.Deposit ∧ e.tx_type ≠ TxType.Withdrawal) :
    handle_dispute (processList emptyDb es) ⟨i, TxType.Dispute, c, a⟩
      = processList emptyDb es := by
  have habs : (processList emptyDb es).txTable i = none :=
    txTable_none_preserved i es emptyDb rfl h
  simp [handle_dispute, queryTx, habs]

/-- Witness for C8 at a concrete input: after one deposit with id 1, a
dispute naming id 2 leaves the state unchanged. -/
theorem c8_dispute_unknown_id_noop_witness :
    handle_dispute (processList emptyDb [⟨1, TxType.Deposit, 1, 5⟩])
        ⟨2, TxType.Dispute, 7, 0⟩
      = processList emptyDb [⟨1, TxType.Deposit, 1, 5⟩] :=
  c8_dispute_unknown_id_noop [⟨1, TxType.Deposit, 1, 5⟩] 2 7 0 (by simp)

/-- C9: every reported output row has total = available + held, because
from_sql_table derives total from the two stored columns at read time (the
account schema stores no total column at all), after any event sequence. -/
theorem c9_total_derived (db : Db) (es : List Tx) (c : ClientId)
    (r : AccountRow)
    (_h : (processList db es).accountTable c = some r) :
    (reportRow c r).total = (reportRow c r).available + (reportRow c r).held :=
  rfl

/-- Witness for C9 at a concrete input: after one deposit of 5 the row of
client 1 reports total 5 = 5 + 0. -/
theorem c9_total_derived_witness :
    (reportRow 1 ⟨5, 0, false, AccountStatus.Active⟩).total
      = (reportRow 1 ⟨5, 0, false, AccountStatus.Active⟩).available
        + (reportRow 1 ⟨5, 0, false, AccountStatus.Active⟩).held :=
  c9_total_derived emptyDb [⟨1, TxType.Deposit, 1, 5⟩] 1
    ⟨5, 0, false, AccountStatus.Active⟩
    (by simp [processList, handle_tx, handle_deposit, insertOrIgnore,
      updateAccountWhere, emptyDb])

/-- C1 (amended): handle_resolve's lookup filters on status = processed, not
in_dispute.  When a Processed row with the event's id and client exists, the
row becomes Resolved and, when the client's account row exists, the amount
moves from held to available; when the row is InDispute, or owned by another
client, or absent, the event is a no-op. -/
theorem c1_resolve_processed_filter (db : Db) (i : TxId) (c : ClientId)
    (a : Amount) :
    (∀ row, db.txTable i = some row → row.status = TxStatus.Processed →
      row.client_id = c →
        ((handle_resolve db ⟨i, TxType.Resolve, c, a⟩).txTable i
            = some { row with status := TxStatus.Resolved }
          ∧ ∀ acc, db.accountTable c = some acc →
              (handle_resolve db ⟨i, TxType.Resolve, c, a⟩).accountTable c
                = some { acc with
                    available_amount := acc.available_amount + row.amount,
                    held_amount := acc.held_amount - row.amount }))
    ∧ (∀ row, db.txTable i = some row → row.status = TxStatus.InDispute →
        handle_resolve db ⟨i, TxType.Resolve, c, a⟩ = db)
    ∧ (∀ row, db.txTable i = some row → row.client_id ≠ c →
        handle_resolve db ⟨i, TxType.Resolve, c, a⟩ = db)
    ∧ (db.txTable i = none →
        handle_resolve db ⟨i, TxType.Resolve, c, a⟩ = db) := by
  refine ⟨?_, ?_, ?_, ?_⟩
  · intro row hrow hst hc
    constructor
    · simp [handle_resolve, queryTx, hrow, hst, hc, updateTxStatus]
    · intro acc hacc
      simp [handle_resolve, queryTx, hrow, hst, hc, updateAccountWhere, hacc]
  · intro row hrow hst
    simp [handle_resolve, queryTx, hrow, hst]
  · intro row hrow hc
    simp [handle_resolve, queryTx, hrow, hc]
  · intro hnone
    simp [handle_resolve, queryTx, hnone]

/-- Counterexample to C1 as stated: after depositing 5 as transaction 1 for
client 1 and disputing it, an InDispute row with id 1 and matching client
exists, yet Resolve(1, 1) leaves both stores completely unchanged instead of
crediting available and marking the row Resolved. -/
theorem c1_resolve_counterexample :
    (processList emptyDb [⟨1, TxType.Deposit, 1, 5⟩, ⟨1, TxType.Dispute, 1, 0⟩]).txTable 1
      = some ⟨TxType.Deposit, 1, 5, TxStatus.InDispute⟩
    ∧ (processList emptyDb [⟨1, TxType.Deposit, 1, 5⟩, ⟨1, TxType.Dispute, 1, 0⟩]).accountTable 1
      = some ⟨0, 5, false, AccountStatus.Active⟩
    ∧ handle_resolve
        (processList emptyDb [⟨1, TxType.Deposit, 1, 5⟩, ⟨1, TxType.Dispute, 1, 0⟩])
        ⟨1, TxType.Resolve, 1, 0⟩
      = processList emptyDb [⟨1, TxType.Deposit, 1, 5⟩, ⟨1, TxType.Dispute, 1, 0⟩] := by
  have htx : (processList emptyDb
      [⟨1, TxType.Deposit, 1, 5⟩, ⟨1, TxType.Dispute, 1, 0⟩]).txTable 1
      = some ⟨TxType.Deposit, 1, 5, TxStatus.InDispute⟩ := by
    simp [processList, handle_tx, handle_deposit, handle_dispute, queryTx,
      insertOrIgnore, updateTxStatus, emptyDb]
  refine ⟨htx, ?_, ?_⟩
  · simp [processList, handle_tx, handle_deposit, handle_dispute, queryTx,
      insertOrIgnore, updateTxStatus, updateAccountWhere, emptyDb]
  · simp [handle_resolve, queryTx, htx]

/-- Witness for C1 (amended) at a concrete input: with a Processed deposit of
5 as transaction 1, Resolve(1, 1) marks the row Resolved and credits
available by 5 out of held. -/
theorem c1_resolve_witness :
    (handle_resolve (processList emptyDb [⟨1, TxType.Deposit, 1, 5⟩])
        ⟨1, TxType.Resolve, 1, 0⟩).txTable 1
      = some ⟨TxType.Deposit, 1, 5, TxStatus.Resolved⟩
    ∧ (handle_resolve (processList emptyDb [⟨1, TxType.Deposit, 1, 5⟩])
        ⟨1, TxType.Resolve, 1, 0⟩).accountTable 1
      = some ⟨5 + 5, 0 - 5, false, AccountStatus.Active⟩ := by
  have h := (c1_resolve_processed_filter
      (processList emptyDb [⟨1, TxType.Deposit, 1, 5⟩]) 1 1 0).1
      ⟨TxType.Deposit, 1, 5, TxStatus.Processed⟩
      (by simp [processList, handle_tx, handle_deposit, insertOrIgnore, emptyDb])
      rfl rfl
  exact ⟨h.1, h.2 ⟨5, 0, false, AccountStatus.Active⟩
    (by simp [processList, handle_tx, handle_deposit, insertOrIgnore,
      updateAccountWhere, emptyDb])⟩

/-- C7: a chargeback that finds its InDispute row marks that row Chargeback
and rewrites the client's account row with held reduced by exactly the
disputed amount, status blocked (hence reported locked = true), and
available untouched. -/
theorem c7_chargeback_effect (db : Db) (i : TxId) (c : ClientId) (a : Amount)
    (row : TxRow) (acc : AccountRow)
    (hrow : db.txTable i = some row)
    (hst : row.status = TxStatus.InDispute)
    (hc : row.client_id = c)
    (hacc : db.accountTable c = some acc) :
    (handle_chargeback db ⟨i, TxType.Chargeback, c, a⟩).accountTable c
        = some ⟨acc.available_amount, acc.held_amount - row.amount, acc.locked,
            AccountStatus.Blocked⟩
    ∧ (reportRow c ⟨acc.available_amount, acc.held_amount - row.amount,
        acc.locked, AccountStatus.Blocked⟩).locked = true
    ∧ (handle_chargeback db ⟨i, TxType.Chargeback, c, a⟩).txTable i
        = some { row with status := TxStatus.Chargeback } := by
  refine ⟨?_, by simp [reportRow], ?_⟩
  · simp [handle_chargeback, queryTx, hrow, hst, hc, updateAccountWhere, hacc]
  · simp [handle_chargeback, queryTx, hrow, hst, hc, updateTxStatus]

/-- Witness for C7 at a concrete input: charging back the disputed deposit of
5 (transaction 1, client 1) blocks the account, empties held and leaves
available at 0. -/
theorem c7_chargeback_effect_witness :
    (handle_chargeback
        (processList emptyDb [⟨1, TxType.Deposit, 1, 5⟩, ⟨1, TxType.Dispute, 1, 0⟩])
        ⟨1, TxType.Chargeback, 1, 0⟩).accountTable 1
      = some ⟨0, 5 - 5, false, AccountStatus.Blocked⟩
    ∧ (handle_chargeback
        (processList emptyDb [⟨1, TxType.Deposit, 1, 5⟩, ⟨1, TxType.Dispute, 1, 0⟩])
        ⟨1, TxType.Chargeback, 1, 0⟩).txTable 1
      = some ⟨TxType.Deposit, 1, 5, TxStatus.Chargeback⟩ := by
  have h := c7_chargeback_effect
    (processList emptyDb [⟨1, TxType.Deposit, 1, 5⟩, ⟨1, TxType.Dispute, 1, 0⟩])
    1 1 0 ⟨TxType.Deposit, 1, 5, TxStatus.InDispute⟩
    ⟨0, 5, false, AccountStatus.Active⟩
    (by simp [processList, handle_tx, handle_deposit, handle_dispute, queryTx,
      insertOrIgnore, updateTxStatus, emptyDb])
    rfl rfl
    (by simp [processList, handle_tx, handle_deposit, handle_dispute, queryTx,
      insertOrIgnore, updateTxStatus, updateAccountWhere, emptyDb])
  exact ⟨h.1, h.2.2⟩

/-- The event stream of the second end-to-end scenario (the source's test
variant_2): deposits 1/2/3, disputes on 1 and 2, resolve on 2, chargeback
on 1.  Dispute-family events carry no amount; 0 stands for the ignored
field. -/
def scenario2 : List Tx :=
  [⟨1, TxType.Deposit, 1, 1⟩, ⟨2, TxType.Deposit, 2, 2⟩,
    ⟨3, TxType.Deposit, 1, 2⟩, ⟨1, TxType.Dispute, 1, 0⟩,
    ⟨2, TxType.Dispute, 2, 0⟩, ⟨2, TxType.Resolve, 2, 0⟩,
    ⟨1, TxType.Chargeback, 1, 0⟩]

/-- Counterexample to C2 as stated: in the final state of the scenario,
client 2's account holds available 0 and held 2 — the resolve was a no-op
(its lookup filters on status processed while row 2 is in_dispute) — whereas
the claim asserts available 2 and held 0. -/
theorem c2_scenario_counterexample :
    (processList emptyDb scenario2).accountTable 2
      = some ⟨0, 2, false, AccountStatus.Active⟩
    ∧ (some (⟨0, 2, false, AccountStatus.Active⟩ : AccountRow)
        ≠ some (⟨2, 0, false, AccountStatus.Active⟩ : AccountRow)) := by
  constructor
  · simp [scenario2, processList, handle_tx, handle_deposit, handle_dispute,
      handle_resolve, handle_chargeback, queryTx, insertOrIgnore,
      updateTxStatus, updateAccountWhere, emptyDb]
  · intro hEq
    have h02 : (0 : ℚ) = 2 := congrArg
      (fun o => (o.getD ⟨0, 0, false, AccountStatus.Active⟩).available_amount) hEq
    norm_num at h02

/-- C2 (amended): the scenario ends with client 1 available 2, held 0,
total 2, locked true and client 2 available 0, held 2, total 2, locked
false — matching the source's own test variant_2, with the Resolve(2, 2)
a no-op because handle_resolve's lookup filters on status processed. -/
theorem c2_scenario_amended :
    (processList emptyDb scenario2).accountTable 1
      = some ⟨2, 0, false, AccountStatus.Blocked⟩
    ∧ (processList emptyDb scenario2).accountTable 2
      = some ⟨0, 2, false, AccountStatus.Active⟩
    ∧ reportRow 1 ⟨2, 0, false, AccountStatus.Blocked⟩ = ⟨1, 2, 0, 2, true⟩
    ∧ reportRow 2 ⟨0, 2, false, AccountStatus.Active⟩ = ⟨2, 0, 2, 2, false⟩ := by
  refine ⟨?_, ?_, ?_, ?_⟩ <;>
    simp [scenario2, processList, handle_tx, handle_deposit, handle_dispute,
      handle_resolve, handle_chargeback, queryTx, insertOrIgnore,
      updateTxStatus, updateAccountWhere, reportRow, emptyDb]

/-- C3: evaluation at the failing input.  Client 1 deposits 1 as transaction
1; the withdrawal of 5 as transaction 2 fails its funds guard, so available
stays 1 — yet a Processed withdrawal row for id 2 IS inserted, because the
source's insert is not conditioned on the debit having matched a row. -/
theorem c3_withdrawal_record_created :
    (processList emptyDb
        [⟨1, TxType.Deposit, 1, 1⟩, ⟨2, TxType.Withdrawal, 1, 5⟩]).accountTable 1
      = some ⟨1, 0, false, AccountStatus.Active⟩
    ∧ (processList emptyDb
        [⟨1, TxType.Deposit, 1, 1⟩, ⟨2, TxType.Withdrawal, 1, 5⟩]).txTable 2
      = some ⟨TxType.Withdrawal, 1, 5, TxStatus.Processed⟩ := by
  constructor <;>
    simp [processList, handle_tx, handle_deposit, handle_withdrawal,
      insertOrIgnore, updateAccountWhere, emptyDb]

/-- Whether some event of the list, processed over the state it actually
meets, is a Deposit for client c whose transaction id is fresh at that
moment — the only situation in which any handler inserts an account row. -/
def createsAccountFor : Db → List Tx → ClientId → Bool
  | _, [], _ => false
  | db, e :: es, c =>
    decide (e.tx_type = TxType.Deposit ∧ e.client_id = c
        ∧ db.txTable e.id = none)
      || createsAccountFor (handle_tx db e) es c

/-- One step of the account-existence characterization: after one event, an
account row for c exists exactly when it already did, or the event was a
Deposit for c with a fresh transaction id. -/
theorem handle_tx_account_isSome (db : Db) (e : Tx) (c : ClientId) :
    ((handle_tx db e).accountTable c).isSome
      = ((db.accountTable c).isSome
          || decide (e.tx_type = TxType.Deposit ∧ e.client_id = c
              ∧ db.txTable e.id = none)) := by
  cases hty : e.tx_type
  case Deposit =>
    cases hid : db.txTable e.id with
    | some r => simp [handle_tx, hty, handle_deposit, hid]
    | none =>
      by_cases hc : c = e.client_id
      · simp [handle_tx, hty, handle_deposit, hid, insertOrIgnore,
          updateAccountWhere, hc]
      · simp [handle_tx, hty, handle_deposit, hid, insertOrIgnore,
          updateAccountWhere, hc, Ne.symm hc]
  case Withdrawal =>
    cases hid : db.txTable e.id with
    | some r => simp [handle_tx, hty, handle_withdrawal, hid]
    | none =>
      simp [handle_tx, hty, handle_withdrawal, hid, updateAccountWhere_isSome]
  case Dispute =>
    cases hq : queryTx db e.client_id e.id TxStatus.Processed with
    | none => simp [handle_tx, hty, handle_dispute, hq]
    | some row =>
      simp [handle_tx, hty, handle_dispute, hq, updateAccountWhere_isSome]
  case Resolve =>
    cases hq : queryTx db e.client_id e.id TxStatus.Processed with
    | none => simp [handle_tx, hty, handle_resolve, hq]
    | some row =>
      simp [handle_tx, hty, handle_resolve, hq, updateAccountWhere_isSome]
  case Chargeback =>
    cases hq : queryTx db e.client_id e.id TxStatus.InDispute with
    | none => simp [handle_tx, hty, handle_chargeback, hq]
    | some row =>
      simp [handle_tx, hty, handle_chargeback, hq, updateAccountWhere_isSome]

/-- The account-existence characterization over a whole stream, from any
starting state. -/
theorem processList_account_isSome :
    ∀ (es : List Tx) (db : Db) (c : ClientId),
      ((processList db es).accountTable c).isSome
        = ((db.accountTable c).isSome || createsAccountFor db es c) := by
  intro es
  induction es with
  | nil => intro db c; simp [processList, createsAccountFor]
  | cons e rest ih =>
    intro db c
    have hfold : processList db (e :: rest) = processList (handle_tx db e) rest := by
      simp [processList]
    rw [hfold, ih (handle_tx db e) c, handle_tx_account_isSome,
      createsAccountFor, Bool.or_assoc]

/-- C10 (amended): starting from the empty state, an account row for a client
exists after processing exactly when some Deposit event naming that client
was processed at a moment when no transaction row with that event's id
existed yet.  In particular Withdrawal, Dispute, Resolve and Chargeback
events never create an account row, and a Deposit whose transaction id was
already taken creates none either. -/
theorem c10_account_creation (es : List Tx) (c : ClientId) :
    ((processList emptyDb es).accountTable c).isSome
      = createsAccountFor emptyDb es c := by
  have h := processList_account_isSome es emptyDb c
  simpa [emptyDb] using h

/-- Counterexample to C10 as stated: in the stream below, a Deposit naming
client 2 is processed (the second event), yet no account row for client 2
exists afterwards, because that deposit reused transaction id 1 and hit the
duplicate-id guard. -/
theorem c10_account_creation_counterexample :
    (processList emptyDb
        [⟨1, TxType.Deposit, 1, 5⟩, ⟨1, TxType.Deposit, 2, 5⟩]).accountTable 2
      = none
    ∧ (⟨1, TxType.Deposit, 2, 5⟩ : Tx)
        ∈ [(⟨1, TxType.Deposit, 1, 5⟩ : Tx), ⟨1, TxType.Deposit, 2, 5⟩]
    ∧ (⟨1, TxType.Deposit, 2, 5⟩ : Tx).tx_type = TxType.Deposit
    ∧ (⟨1, TxType.Deposit, 2, 5⟩ : Tx).client_id = 2 := by
  refine ⟨?_, by simp, rfl, rfl⟩
  simp [processList, handle_tx, handle_deposit, insertOrIgnore,
    updateAccountWhere, emptyDb]

/-- Modelled from the source's amount representation: `type Amount = f64`
stores IEEE-754 binary64 values, i.e. numbers of the form n * 2 ^ e with the
integer n below 2 ^ 53 in magnitude (ignoring the exponent range, which only
shrinks the set further). -/
def representableBinary64 (q : ℚ) : Prop :=
  ∃ n : ℤ, ∃ e : ℤ, n.natAbs < 2 ^ 53 ∧ q = (n : ℚ) * 2 ^ e

/-- The binary64 value nearest to the decimal 0.1: what the source's f64
amount actually holds after parsing a deposit of 0.1. -/
def binary64NearestTenth : ℚ := 3602879701896397 / 2 ^ 55

/-- C4 fails on the code: the source represents every amount as binary
floating point (f64 and DOUBLE PRECISION columns), and binary64 cannot hold
the decimal amount 0.1 at all — its nearest value differs from 1/10, and no
binary64 value equals 1/10. -/
theorem c4_amount_not_decimal :
    binary64NearestTenth ≠ (1 : ℚ) / 10
    ∧ ¬ representableBinary64 ((1 : ℚ) / 10) := by
  constructor
  · unfold binary64NearestTenth
    norm_num
  · rintro ⟨n, e, -, h⟩
    rcases le_or_lt 0 e with he | he
    · obtain ⟨k, rfl⟩ := Int.eq_ofNat_of_zero_le he
      rw [zpow_natCast] at h
      have h3 : (1 : ℚ) = (n : ℚ) * 2 ^ k * 10 := by linear_combination 10 * h
      have h4 : (1 : ℤ) = n * 2 ^ k * 10 := by exact_mod_cast h3
      have h5 : (2 : ℤ) ∣ 1 := ⟨n * 2 ^ k * 5, by linear_combination h4⟩
      omega
    · obtain ⟨k, hk⟩ := Int.eq_ofNat_of_zero_le (by omega : (0 : ℤ) ≤ -e)
      have hk2 : e = -(k : ℤ) := by omega
      rw [hk2, zpow_neg, zpow_natCast] at h
      have hne : ((2 : ℚ) ^ k) ≠ 0 := by positivity
      have h3 : ((2 : ℚ) ^ k) = 10 * (n : ℚ) := by
        field_simp at h
        linarith
      have h4 : (2 : ℤ) ^ k = 10 * n := by exact_mod_cast h3
      have h5 : (5 : ℤ) ∣ 2 ^ k := ⟨2 * n, by linear_combination h4⟩
      have hp : Prime (5 : ℤ) := Int.prime_iff_natAbs_prime.mpr (by norm_num)
      have h6 : (5 : ℤ) ∣ 2 := hp.dvd_of_dvd_pow h5
      omega

end TxProcessor
